import Mathlib

/-!
# FireO field layer: a shallow embedding

This file embeds the field/reference subsystem of the FireO ODM
(`fireo/fields/fields.py`, `fireo/utils/utils.py`) in Lean 4 and proves
the specified properties of it.

Python classes are modelled as a single-inheritance chain with a flat
attribute table (attribute name paired with a callability flag), which is
all the source consults: `issubclass` walks the chain, `getattr` walks the
chain looking the name up in each table.  Python values that reach the
field layer are modelled by `PyValue`; exceptions raised by the code are
modelled by returning `Except FireoError`.  String building mirrors the
f-strings of the source.  `str.lower()` is modelled on the ASCII range
(`Char.toLower`), which covers the identifiers the code is applied to,
and the regex character class `[A-Z]` is exactly `Char.isUpper`.
-/

namespace FireO

/-- A Python class: either the root `object` or a class with a name, a
single base class and a table of attributes (name, callable?).  The
source only ever asks `issubclass`, `__name__` and `getattr`, so this
carries exactly that data. -/
inductive PyClass where
  | object : PyClass
  | cls (nm : String) (parent : PyClass) (attrs : List (String × Bool)) : PyClass
deriving DecidableEq, Repr

/-- `__name__` of a class. -/
def PyClass.name : PyClass → String
  | .object => "object"
  | .cls nm _ _ => nm

/-- Python `issubclass(c, d)`: `c` is `d` or `d` appears on `c`'s chain
of bases. -/
def PyClass.isSubclass : PyClass → PyClass → Bool
  | .object, d => PyClass.object == d
  | .cls nm p attrs, d => (PyClass.cls nm p attrs == d) || p.isSubclass d

/-- Python `getattr(c, nm)` restricted to what the source needs: `some b`
when the attribute exists (`b` says whether it is callable), `none` when
looking it up would raise `AttributeError`. -/
def PyClass.getattr : PyClass → String → Option Bool
  | .object, _ => Option.none
  | .cls _ p attrs, nm =>
    match attrs.lookup nm with
    | Option.some c => Option.some c
    | Option.none => p.getattr nm

/-- Modelled from the spec: the model base class `fireo.models.Model`
(the `fireo/models` module is outside the provided sources); every user
model class must subclass it. -/
def Model : PyClass := .cls "Model" .object []

/-- The builtin `NoneType`, the class of `None`. -/
def NoneType : PyClass := .cls "NoneType" .object []

/-- The builtin `int` class. -/
def IntClass : PyClass := .cls "int" .object []

/-- The builtin `bool` class (a subclass of `int` in Python). -/
def BoolClass : PyClass := .cls "bool" IntClass []

/-- The builtin `str` class. -/
def StrClass : PyClass := .cls "str" .object []

/-- A model instance as the field layer sees it: its class and its `key`
(the slash-delimited document path). -/
structure ModelInstance where
  cls : PyClass
  key : String
deriving DecidableEq, Repr

/-- The Python values that reach the field layer. -/
inductive PyValue where
  | none : PyValue
  | bool (b : Bool) : PyValue
  | int (n : Int) : PyValue
  | str (s : String) : PyValue
  | model (m : ModelInstance) : PyValue
deriving DecidableEq, Repr

/-- `type(v)` / `v.__class__`. -/
def PyValue.pyclass : PyValue → PyClass
  | .none => NoneType
  | .bool _ => BoolClass
  | .int _ => IntClass
  | .str _ => StrClass
  | .model m => m.cls

/-- Modelled from the spec: the error types of `fireo.fields.errors`
(the module is outside the provided sources), plus the builtin
`AttributeError` used by `getattr`.  Each carries its message. -/
inductive FireoError where
  | nestedModelTypeError (msg : String) : FireoError
  | referenceTypeError (msg : String) : FireoError
  | attributeTypeError (msg : String) : FireoError
  | attributeMethodNotDefined (msg : String) : FireoError
  | attributeErrorBuiltin (attr : String) : FireoError
deriving DecidableEq, Repr

/-- `firestore.DocumentReference(*path, client=conn)`: an opaque handle
holding the ordered path segments and the client connection it was
constructed with. -/
structure DocumentReference where
  path : List String
  client : String
deriving DecidableEq, Repr

/-- Modelled from the spec: the active database connection `db.conn`
(the `fireo/database` module is outside the provided sources), treated
as an opaque handle. -/
def db_conn : String := "db.conn"

/-- `sub.containedIn s`: `sub` occurs contiguously inside `s` (used to
state that an error message names a field or a type). -/
def String.containedIn (sub s : String) : Prop := sub.data <:+: s.data

instance (sub s : String) : Decidable (String.containedIn sub s) :=
  List.decidableInfix sub.data s.data

/-! ## Utilities (`fireo/utils/utils.py`) -/

/-- Python `key.split('/')` on the character list: splitting on `'/'`
keeps empty chunks and yields one chunk more than there are separators
(`[""]` on the empty string). -/
def splitSlash : List Char → List (List Char)
  | [] => [[]]
  | c :: cs =>
    if c = '/' then [] :: splitSlash cs
    else
      match splitSlash cs with
      | [] => [[c]]
      | r :: rs => (c :: r) :: rs

/-- `ref_path(key)`: `return key.split('/')`. -/
def ref_path (key : String) : List String :=
  (splitSlash key.data).map (fun l => String.mk l)

/-- The scan performed by `re.sub('(?!^)([A-Z]+)', r'_\1', ...)` after
position 0: at each position, a maximal run of uppercase letters is
matched greedily and replaced by an underscore followed by the run;
other characters are copied. -/
def subUpper : List Char → List Char
  | [] => []
  | c :: cs =>
    if c.isUpper then
      ('_' :: c :: cs.takeWhile Char.isUpper) ++ subUpper (cs.dropWhile Char.isUpper)
    else
      c :: subUpper cs
termination_by l => l.length
decreasing_by
  · exact Nat.lt_succ_of_le (List.dropWhile_suffix _).length_le
  · exact Nat.lt_succ_of_le (Nat.le_refl _)

/-- `collection_name(model)`:
`return re.sub('(?!^)([A-Z]+)', r'_\1', model).lower()`.
The lookahead `(?!^)` exempts position 0, so the first character is
copied unchanged and the run scan starts at position 1. -/
def collection_name (model : String) : String :=
  match model.data with
  | [] => ""
  | c :: cs => String.mk ((c :: subUpper cs).map Char.toLower)

/-- Follows the spec's words, for comparison with `collection_name`:
walking the characters after the first one, an underscore is inserted
before each uppercase letter that begins a run of uppercase letters
(the flag records whether the previous character was part of a run). -/
def specMark : Bool → List Char → List Char
  | _, [] => []
  | inRun, c :: cs =>
    if c.isUpper then
      if inRun then c :: specMark true cs
      else '_' :: c :: specMark true cs
    else c :: specMark false cs

/-- Follows the spec's words, for comparison: an underscore before each
run of uppercase letters not at the start of the string, then the whole
string lowercased. -/
def collection_name_spec (model : String) : String :=
  match model.data with
  | [] => ""
  | c :: cs => String.mk ((c :: specMark false cs).map Char.toLower)

/-! ## Fields (`fireo/fields/fields.py`)

Field state carried over from the base `Field` contract (outside the
provided sources, described by the spec's field base contract): the
attribute name `name` and the owning model class `model_cls`, both set
when the field is attached to a model class.  Constructors are embedded
as functions taking the declared target class together with that state
and returning `Except`, since the Python constructors raise before any
field instance is produced. -/

/-- `NestedModel`: a model inside another model.  `name` and
`nested_model` as in the source. -/
structure NestedModel where
  name : String
  nested_model : PyClass
deriving DecidableEq, Repr

/-- `NestedModel.__init__`: checks the nested model class is a subclass
of `Model`, raising `NestedModelTypeError` otherwise, then stores it. -/
def NestedModel.init (model : PyClass) (name : String) :
    Except FireoError NestedModel :=
  if model.isSubclass Model then
    .ok (NestedModel.mk name model)
  else
    .error (.nestedModelTypeError
      ("Nested model " ++ model.name ++ " must be inherit from Model class"))

/-- `NestedModel.valid_model`: true when the declared nested model class
equals the instance's class, `NestedModelTypeError` otherwise. -/
def NestedModel.valid_model (f : NestedModel) (model_instance : ModelInstance) :
    Except FireoError Bool :=
  if f.nested_model = model_instance.cls then
    .ok true
  else
    .error (.nestedModelTypeError
      ("Invalid nested model type. Field \"" ++ f.name ++ "\" required value type "
        ++ f.nested_model.name ++ ", but got " ++ model_instance.cls.name))

/-- `ReferenceField`: reference to another model's document.  `name` and
`model_cls` from the base contract; `model_ref`, `auto_load`, `on_load`
as in the source. -/
structure ReferenceField where
  name : String
  model_cls : PyClass
  model_ref : PyClass
  auto_load : Bool
  on_load : Option String
deriving DecidableEq, Repr

/-- `ReferenceField.__init__`: checks the target class is a subclass of
`Model`, raising `ReferenceTypeError` otherwise, then stores it and sets
the defaults `auto_load = True`, `on_load = None`. -/
def ReferenceField.init (model_ref : PyClass) (name : String) (model_cls : PyClass) :
    Except FireoError ReferenceField :=
  if model_ref.isSubclass Model then
    .ok (ReferenceField.mk name model_cls model_ref true Option.none)
  else
    .error (.referenceTypeError
      ("Reference model " ++ model_ref.name ++ " must be inherit from Model class"))

/-- `ReferenceField.db_value`: checks `issubclass(model.__class__,
self.model_ref)`, raising `ReferenceTypeError` otherwise, then builds
`firestore.DocumentReference(*utils.ref_path(model.key), client=db.conn)`.
Reading `.key` off a value that is not a model instance would raise the
builtin `AttributeError` (unreachable when `model_ref` subclasses
`Model`, since only model instances pass the subclass check then). -/
def ReferenceField.db_value (f : ReferenceField) (model : PyValue) :
    Except FireoError DocumentReference :=
  if model.pyclass.isSubclass f.model_ref then
    match model with
    | .model m => .ok (DocumentReference.mk (ref_path m.key) db_conn)
    | _ => .error (.attributeErrorBuiltin "key")
  else
    .error (.referenceTypeError
      ("Invalid reference type. Field \"" ++ f.name ++ "\" required value type "
        ++ f.model_ref.name ++ ", but got " ++ model.pyclass.name))

/-- `ReferenceField.attr_auto_load`: `type(attr_val) is not bool` raises
`AttributeTypeError`; otherwise `self.auto_load = attr_val` and the
field value is returned unchanged.  The updated field object is returned
alongside the passed-through value (the source mutates `self`). -/
def ReferenceField.attr_auto_load (f : ReferenceField)
    (attr_val : PyValue) (field_val : PyValue) :
    Except FireoError (ReferenceField × PyValue) :=
  match attr_val with
  | .bool b =>
    .ok (ReferenceField.mk f.name f.model_cls f.model_ref b f.on_load, field_val)
  | v =>
    .error (.attributeTypeError
      ("Attribute auto_load only accept bool type, got " ++ v.pyclass.name
        ++ " in model " ++ f.model_cls.name ++ " field " ++ f.name))

/-- `ReferenceField.attr_on_load`: `getattr(self.model_cls, method_name)`
raising `AttributeError` is caught and re-raised as
`AttributeMethodNotDefined`; a non-callable attribute raises
`AttributeTypeError`; otherwise `self.on_load = method_name` and the
field value is returned unchanged. -/
def ReferenceField.attr_on_load (f : ReferenceField)
    (method_name : String) (field_val : PyValue) :
    Except FireoError (ReferenceField × PyValue) :=
  match f.model_cls.getattr method_name with
  | Option.none =>
    .error (.attributeMethodNotDefined
      ("Method " ++ method_name ++ " is not defined for attribute on_load in model "
        ++ f.model_cls.name ++ " field " ++ f.name))
  | Option.some c =>
    if c then
      .ok (ReferenceField.mk f.name f.model_cls f.model_ref f.auto_load
            (Option.some method_name), field_val)
    else
      .error (.attributeTypeError
        ("Attribute " ++ method_name ++ " is not callable in model "
          ++ f.model_cls.name ++ " field " ++ f.name))

/-! ## Concrete classes and fields used by the witnesses -/

/-- A user model class subclassing `Model`, with one callable method
`clean` and one non-callable attribute `version`. -/
def CompanyCls : PyClass :=
  .cls "Company" Model [("clean", true), ("version", false)]

/-- A strict subclass of `CompanyCls`. -/
def SubCompanyCls : PyClass := .cls "SubCompany" CompanyCls []

/-- A class unrelated to `Model`. -/
def PlainCls : PyClass := .cls "Plain" .object []

/-- A reference field on `CompanyCls` targeting `CompanyCls`. -/
def companyRef : ReferenceField :=
  ReferenceField.mk "company" CompanyCls CompanyCls true Option.none

/-- A nested-model field declaring `CompanyCls`. -/
def companyNested : NestedModel := NestedModel.mk "company" CompanyCls

/-! ## Lemmas about the utilities -/

lemma splitSlash_of_not_mem : ∀ {l : List Char}, '/' ∉ l → splitSlash l = [l] := by
  intro l h
  induction l with
  | nil => rfl
  | cons c cs ih =>
    have hc : ¬ c = '/' := fun e => h (e ▸ List.mem_cons_self c cs)
    have hcs : '/' ∉ cs := fun m => h (List.mem_cons_of_mem c m)
    simp [splitSlash, hc, ih hcs]

lemma splitSlash_append : ∀ {a : List Char} (r : List Char), '/' ∉ a →
    splitSlash (a ++ '/' :: r) = a :: splitSlash r := by
  intro a
  induction a with
  | nil => intro r _; simp [splitSlash]
  | cons c a ih =>
    intro r h
    have hc : ¬ c = '/' := fun e => h (e ▸ List.mem_cons_self c a)
    have ha : '/' ∉ a := fun m => h (List.mem_cons_of_mem c m)
    simp [splitSlash, hc, ih r ha]

lemma specMark_true_eq : ∀ (cs : List Char),
    specMark true cs =
      cs.takeWhile Char.isUpper ++ specMark false (cs.dropWhile Char.isUpper) := by
  intro cs
  induction cs with
  | nil => rfl
  | cons c cs ih =>
    by_cases hc : c.isUpper
    · simp [specMark, hc, List.takeWhile_cons, List.dropWhile_cons, ih]
    · simp [specMark, hc, List.takeWhile_cons, List.dropWhile_cons]

lemma subUpper_eq_specMark : ∀ (l : List Char), subUpper l = specMark false l := by
  intro l
  induction l using subUpper.induct with
  | case1 => simp [subUpper, specMark]
  | case2 c cs hc ih =>
    rw [subUpper, if_pos hc, specMark, if_pos hc, specMark_true_eq, ih]
    simp
  | case3 c cs hc ih =>
    rw [subUpper, if_neg hc, specMark, if_neg hc, ih]

/-! ## Claim theorems -/

lemma collection_name_eq_spec : ∀ s : String, collection_name s = collection_name_spec s := by
  intro s
  rcases s with ⟨l⟩
  rcases l with _ | ⟨c, cs⟩
  · rfl
  · show String.mk ((c :: subUpper cs).map Char.toLower)
      = String.mk ((c :: specMark false cs).map Char.toLower)
    rw [subUpper_eq_specMark]

/-- Claim C5: `collection_name` inserts an underscore before each run of
uppercase letters not at the start of the string (the first character is
exempt: a run touching position 0 is matched only from its second letter
on) and then lowercases the whole string; in particular
`collection_name("CompanyIssue87") = "company_issue87"`.  Determinism and
purity are inherent: the embedding is a total function. -/
theorem collection_name_snake_case :
    (∀ s : String, collection_name s = collection_name_spec s) ∧
    collection_name "CompanyIssue87" = "company_issue87" :=
  ⟨collection_name_eq_spec, by rw [collection_name_eq_spec]; rfl⟩

/-- Claim C6: `ref_path` splits a key on `'/'`: a key of the form
`"a/b/c"` (with slash-free segments) yields `[a, b, c]`, and a key with
no separator yields the one-element list holding the whole string.  No
validation of segment count or emptiness is performed. -/
theorem ref_path_splits_key :
    (∀ a b c : String, '/' ∉ a.data → '/' ∉ b.data → '/' ∉ c.data →
      ref_path (a ++ "/" ++ b ++ "/" ++ c) = [a, b, c]) ∧
    (∀ s : String, '/' ∉ s.data → ref_path s = [s]) := by
  constructor
  · intro a b c ha hb hc
    have hdata : (a ++ "/" ++ b ++ "/" ++ c).data
        = a.data ++ '/' :: (b.data ++ '/' :: c.data) := by
      simp [String.data_append]
    unfold ref_path
    rw [hdata, splitSlash_append _ ha, splitSlash_append _ hb,
      splitSlash_of_not_mem hc]
    rfl
  · intro s h
    unfold ref_path
    rw [splitSlash_of_not_mem h]
    rfl

/-- Witness for C6 at concrete keys. -/
theorem ref_path_splits_key_witness :
    ref_path ("users" ++ "/" ++ "abc123" ++ "/" ++ "orders")
        = ["users", "abc123", "orders"] ∧
    ref_path "abc123" = ["abc123"] :=
  ⟨ref_path_splits_key.1 "users" "abc123" "orders"
      (by decide) (by decide) (by decide),
    ref_path_splits_key.2 "abc123" (by decide)⟩

/-! ## Lemmas about the fields -/

lemma containedIn_intro {x s : String} (pre post : String)
    (h : (pre ++ x ++ post).data = s.data) : String.containedIn x s := by
  refine ⟨pre.data, post.data, ?_⟩
  simpa [String.data_append] using h

lemma db_value_of_subclass (f : ReferenceField) (m : ModelInstance)
    (h : m.cls.isSubclass f.model_ref = true) :
    f.db_value (.model m) = .ok (DocumentReference.mk (ref_path m.key) db_conn) := by
  unfold ReferenceField.db_value
  simp [PyValue.pyclass, h]

lemma db_value_of_not_subclass (f : ReferenceField) (v : PyValue)
    (h : v.pyclass.isSubclass f.model_ref = false) :
    f.db_value v = .error (.referenceTypeError
      ("Invalid reference type. Field \"" ++ f.name ++ "\" required value type "
        ++ f.model_ref.name ++ ", but got " ++ v.pyclass.name)) := by
  unfold ReferenceField.db_value
  simp [h]

lemma valid_model_of_ne (f : NestedModel) (inst : ModelInstance)
    (h : ¬ f.nested_model = inst.cls) :
    f.valid_model inst = .error (.nestedModelTypeError
      ("Invalid nested model type. Field \"" ++ f.name ++ "\" required value type "
        ++ f.nested_model.name ++ ", but got " ++ inst.cls.name)) := by
  unfold NestedModel.valid_model
  simp [h]

/-- Claim C1: for a model instance of a subclass of the declared target
type, `db_value` returns the document reference built from
`ref_path(model.key)` together with the active database connection. -/
theorem db_value_builds_doc_reference (f : ReferenceField) (m : ModelInstance)
    (h : m.cls.isSubclass f.model_ref = true) :
    f.db_value (.model m) = .ok (DocumentReference.mk (ref_path m.key) db_conn) :=
  db_value_of_subclass f m h

/-- Witness for C1 at a concrete field and instance. -/
theorem db_value_builds_doc_reference_witness :
    CompanyCls.isSubclass companyRef.model_ref = true ∧
    companyRef.db_value (.model (ModelInstance.mk CompanyCls "company/doc1"))
      = .ok (DocumentReference.mk (ref_path "company/doc1") db_conn) :=
  ⟨by decide,
    db_value_builds_doc_reference companyRef
      (ModelInstance.mk CompanyCls "company/doc1") (by decide)⟩

/-- Claim C2: `db_value` succeeds exactly on instances of a subclass
(not necessarily exact) of the declared target type; otherwise it raises
a reference type error whose message names the field, the expected type
and the actual type. -/
theorem db_value_subclass_rule (f : ReferenceField) (m : ModelInstance) :
    (m.cls.isSubclass f.model_ref = true → ∃ r, f.db_value (.model m) = .ok r) ∧
    (m.cls.isSubclass f.model_ref = false →
      ∃ msg, f.db_value (.model m) = .error (.referenceTypeError msg) ∧
        String.containedIn f.name msg ∧
        String.containedIn f.model_ref.name msg ∧
        String.containedIn m.cls.name msg) := by
  constructor
  · intro h
    exact ⟨_, db_value_of_subclass f m h⟩
  · intro h
    have he := db_value_of_not_subclass f (.model m)
      (by simpa [PyValue.pyclass] using h)
    refine ⟨_, he, ?_, ?_, ?_⟩
    · exact containedIn_intro "Invalid reference type. Field \""
        ("\" required value type " ++ f.model_ref.name ++ ", but got "
          ++ (PyValue.model m).pyclass.name)
        (by simp [String.data_append])
    · exact containedIn_intro
        ("Invalid reference type. Field \"" ++ f.name ++ "\" required value type ")
        (", but got " ++ (PyValue.model m).pyclass.name)
        (by simp [String.data_append])
    · exact containedIn_intro
        ("Invalid reference type. Field \"" ++ f.name ++ "\" required value type "
          ++ f.model_ref.name ++ ", but got ") ""
        (by simp [String.data_append, PyValue.pyclass])

/-- Witness for C2: a strict subclass instance passes, an unrelated
class fails. -/
theorem db_value_subclass_rule_witness :
    SubCompanyCls.isSubclass companyRef.model_ref = true ∧
    (∃ r, companyRef.db_value (.model (ModelInstance.mk SubCompanyCls "company/doc2"))
        = .ok r) ∧
    PlainCls.isSubclass companyRef.model_ref = false ∧
    (∃ msg, companyRef.db_value (.model (ModelInstance.mk PlainCls "x"))
        = .error (.referenceTypeError msg) ∧
      String.containedIn companyRef.name msg ∧
      String.containedIn companyRef.model_ref.name msg ∧
      String.containedIn (ModelInstance.mk PlainCls "x").cls.name msg) :=
  ⟨by decide,
    (db_value_subclass_rule companyRef (ModelInstance.mk SubCompanyCls "company/doc2")).1
      (by decide),
    by decide,
    (db_value_subclass_rule companyRef (ModelInstance.mk PlainCls "x")).2
      (by decide)⟩

/-- Claim C3: `valid_model` returns true only on an instance whose exact
class equals the declared nested type; any other instance — a strict
subclass included — raises a nested-model type error naming the field,
the expected type and the actual type. -/
theorem valid_model_requires_exact_class (f : NestedModel) (inst : ModelInstance) :
    (f.nested_model = inst.cls → f.valid_model inst = .ok true) ∧
    (f.nested_model ≠ inst.cls →
      ∃ msg, f.valid_model inst = .error (.nestedModelTypeError msg) ∧
        String.containedIn f.name msg ∧
        String.containedIn f.nested_model.name msg ∧
        String.containedIn inst.cls.name msg) ∧
    (inst.cls.isSubclass f.nested_model = true → f.nested_model ≠ inst.cls →
      ∃ msg, f.valid_model inst = .error (.nestedModelTypeError msg)) := by
  refine ⟨?_, ?_, ?_⟩
  · intro h
    unfold NestedModel.valid_model
    simp [h]
  · intro h
    refine ⟨_, valid_model_of_ne f inst h, ?_, ?_, ?_⟩
    · exact containedIn_intro "Invalid nested model type. Field \""
        ("\" required value type " ++ f.nested_model.name ++ ", but got "
          ++ inst.cls.name)
        (by simp [String.data_append])
    · exact containedIn_intro
        ("Invalid nested model type. Field \"" ++ f.name ++ "\" required value type ")
        (", but got " ++ inst.cls.name)
        (by simp [String.data_append])
    · exact containedIn_intro
        ("Invalid nested model type. Field \"" ++ f.name ++ "\" required value type "
          ++ f.nested_model.name ++ ", but got ") ""
        (by simp [String.data_append])
  · intro _ h
    exact ⟨_, valid_model_of_ne f inst h⟩

/-- Witness for C3: exact class accepted, strict subclass rejected. -/
theorem valid_model_requires_exact_class_witness :
    companyNested.valid_model (ModelInstance.mk CompanyCls "c/1") = .ok true ∧
    SubCompanyCls.isSubclass companyNested.nested_model = true ∧
    (∃ msg, companyNested.valid_model (ModelInstance.mk SubCompanyCls "c/2")
        = .error (.nestedModelTypeError msg)) :=
  ⟨(valid_model_requires_exact_class companyNested
      (ModelInstance.mk CompanyCls "c/1")).1 (by decide),
    by decide,
    (valid_model_requires_exact_class companyNested
      (ModelInstance.mk SubCompanyCls "c/2")).2.2 (by decide) (by decide)⟩

/-- Claim C4: both field constructors reject a target class that does
not subclass the model base type, with an error naming the offending
class and before any field instance is produced; a target that does
subclass the base type is accepted. -/
theorem field_init_checks_model_base :
    (∀ (c : PyClass) (nm : String), c.isSubclass Model = true →
      ∃ fld, NestedModel.init c nm = .ok fld) ∧
    (∀ (c : PyClass) (nm : String), c.isSubclass Model = false →
      ∃ msg, NestedModel.init c nm = .error (.nestedModelTypeError msg) ∧
        String.containedIn c.name msg) ∧
    (∀ (c : PyClass) (nm : String) (mc : PyClass), c.isSubclass Model = true →
      ∃ fld, ReferenceField.init c nm mc = .ok fld) ∧
    (∀ (c : PyClass) (nm : String) (mc : PyClass), c.isSubclass Model = false →
      ∃ msg, ReferenceField.init c nm mc = .error (.referenceTypeError msg) ∧
        String.containedIn c.name msg) := by
  refine ⟨?_, ?_, ?_, ?_⟩
  · intro c nm h
    exact ⟨NestedModel.mk nm c, by unfold NestedModel.init; simp [h]⟩
  · intro c nm h
    refine ⟨"Nested model " ++ c.name ++ " must be inherit from Model class",
      by unfold NestedModel.init; simp [h], ?_⟩
    exact containedIn_intro "Nested model "
      " must be inherit from Model class" (by simp [String.data_append])
  · intro c nm mc h
    exact ⟨ReferenceField.mk nm mc c true Option.none,
      by unfold ReferenceField.init; simp [h]⟩
  · intro c nm mc h
    refine ⟨"Reference model " ++ c.name ++ " must be inherit from Model class",
      by unfold ReferenceField.init; simp [h], ?_⟩
    exact containedIn_intro "Reference model "
      " must be inherit from Model class" (by simp [String.data_append])

/-- Witness for C4 at concrete classes. -/
theorem field_init_checks_model_base_witness :
    CompanyCls.isSubclass Model = true ∧
    (∃ fld, NestedModel.init CompanyCls "n" = .ok fld) ∧
    PlainCls.isSubclass Model = false ∧
    (∃ msg, NestedModel.init PlainCls "n" = .error (.nestedModelTypeError msg) ∧
      String.containedIn PlainCls.name msg) ∧
    (∃ fld, ReferenceField.init CompanyCls "r" CompanyCls = .ok fld) ∧
    (∃ msg, ReferenceField.init PlainCls "r" CompanyCls
        = .error (.referenceTypeError msg) ∧
      String.containedIn PlainCls.name msg) :=
  ⟨by decide,
    field_init_checks_model_base.1 CompanyCls "n" (by decide),
    by decide,
    field_init_checks_model_base.2.1 PlainCls "n" (by decide),
    field_init_checks_model_base.2.2.1 CompanyCls "r" CompanyCls (by decide),
    field_init_checks_model_base.2.2.2 PlainCls "r" CompanyCls (by decide)⟩

/-- Claim C7: `attr_auto_load` rejects every non-boolean value with an
attribute type error, accepts `True`/`False` and makes the configured
value observable on the field's `auto_load`, whose default after
construction is `True`. -/
theorem attr_auto_load_bool_only :
    (∀ (f : ReferenceField) (v fv : PyValue), (∀ b, v ≠ PyValue.bool b) →
      ∃ msg, f.attr_auto_load v fv = .error (.attributeTypeError msg)) ∧
    (∀ (f : ReferenceField) (b : Bool) (fv : PyValue),
      ∃ f2, f.attr_auto_load (.bool b) fv = .ok (f2, fv) ∧ f2.auto_load = b) ∧
    (∀ (c : PyClass) (nm : String) (mc : PyClass) (fld : ReferenceField),
      ReferenceField.init c nm mc = .ok fld → fld.auto_load = true) := by
  refine ⟨?_, ?_, ?_⟩
  · intro f v fv h
    cases v with
    | bool b => exact absurd rfl (h b)
    | none => exact ⟨_, rfl⟩
    | int n => exact ⟨_, rfl⟩
    | str s => exact ⟨_, rfl⟩
    | model m => exact ⟨_, rfl⟩
  · intro f b fv
    exact ⟨ReferenceField.mk f.name f.model_cls f.model_ref b f.on_load, rfl, rfl⟩
  · intro c nm mc fld h
    unfold ReferenceField.init at h
    split at h
    · cases h; rfl
    · exact Except.noConfusion h

/-- Witness for C7: a string is rejected, `False` is recorded, and the
freshly constructed field defaults to `auto_load = True`. -/
theorem attr_auto_load_bool_only_witness :
    (∃ msg, companyRef.attr_auto_load (.str "yes") (.int 0)
        = .error (.attributeTypeError msg)) ∧
    (∃ f2, companyRef.attr_auto_load (.bool false) (.int 0) = .ok (f2, .int 0) ∧
      f2.auto_load = false) ∧
    ReferenceField.init CompanyCls "company" CompanyCls = .ok companyRef ∧
    companyRef.auto_load = true :=
  ⟨attr_auto_load_bool_only.1 companyRef (.str "yes") (.int 0)
      (fun b => by simp),
    attr_auto_load_bool_only.2.1 companyRef false (.int 0),
    by rfl,
    attr_auto_load_bool_only.2.2 CompanyCls "company" CompanyCls companyRef
      (by rfl)⟩

/-- Claim C8: `attr_on_load` with a method name absent from the owning
model class fails with a method-not-defined error naming the method, the
model and the field; with the name of an existing callable method it
succeeds and records the name as the field's `on_load`. -/
theorem attr_on_load_requires_method (f : ReferenceField) (mn : String) (fv : PyValue) :
    (f.model_cls.getattr mn = Option.none →
      ∃ msg, f.attr_on_load mn fv = .error (.attributeMethodNotDefined msg) ∧
        String.containedIn mn msg ∧
        String.containedIn f.model_cls.name msg ∧
        String.containedIn f.name msg) ∧
    (f.model_cls.getattr mn = Option.some true →
      ∃ f2, f.attr_on_load mn fv = .ok (f2, fv) ∧ f2.on_load = Option.some mn) := by
  constructor
  · intro h
    refine ⟨"Method " ++ mn ++ " is not defined for attribute on_load in model "
        ++ f.model_cls.name ++ " field " ++ f.name,
      by simp [ReferenceField.attr_on_load, h], ?_, ?_, ?_⟩
    · exact containedIn_intro "Method "
        (" is not defined for attribute on_load in model " ++ f.model_cls.name
          ++ " field " ++ f.name) (by simp [String.data_append])
    · exact containedIn_intro
        ("Method " ++ mn ++ " is not defined for attribute on_load in model ")
        (" field " ++ f.name) (by simp [String.data_append])
    · exact containedIn_intro
        ("Method " ++ mn ++ " is not defined for attribute on_load in model "
          ++ f.model_cls.name ++ " field ") "" (by simp [String.data_append])
  · intro h
    exact ⟨ReferenceField.mk f.name f.model_cls f.model_ref f.auto_load
        (Option.some mn),
      by simp [ReferenceField.attr_on_load, h], rfl⟩

/-- Witness for C8: `Company` has a callable `clean` method and no
`missing` attribute. -/
theorem attr_on_load_requires_method_witness :
    companyRef.model_cls.getattr "missing" = Option.none ∧
    (∃ msg, companyRef.attr_on_load "missing" (.int 0)
        = .error (.attributeMethodNotDefined msg) ∧
      String.containedIn "missing" msg ∧
      String.containedIn companyRef.model_cls.name msg ∧
      String.containedIn companyRef.name msg) ∧
    companyRef.model_cls.getattr "clean" = Option.some true ∧
    (∃ f2, companyRef.attr_on_load "clean" (.int 0) = .ok (f2, .int 0) ∧
      f2.on_load = Option.some "clean") :=
  ⟨by rfl,
    (attr_on_load_requires_method companyRef "missing" (.int 0)).1 (by rfl),
    by rfl,
    (attr_on_load_requires_method companyRef "clean" (.int 0)).2 (by rfl)⟩

lemma noneType_not_subclass {d : PyClass} (h : d.isSubclass Model = true) :
    NoneType.isSubclass d = false := by
  have h1 : d ≠ NoneType := by
    rintro rfl; exact absurd h (by decide)
  have h2 : d ≠ PyClass.object := by
    rintro rfl; exact absurd h (by decide)
  simp only [NoneType, PyClass.isSubclass, Bool.or_eq_false_iff,
    beq_eq_false_iff_ne]
  exact ⟨fun e => h1 e.symm, fun e => h2 e.symm⟩

/-- Counterexample to C9: the one `db_value` present in the source does
not treat `None` as a sentinel — given `None` it runs the subclass check
and raises `ReferenceTypeError`, instead of returning `None`. -/
theorem db_value_none_counterexample :
    companyRef.db_value PyValue.none = .error (.referenceTypeError
      "Invalid reference type. Field \"company\" required value type Company, but got NoneType") := by
  rfl

/-- Claim C9 (amended): the conversion variant present in the source
keeps the attribute-parser pass-through and does not short-circuit on
`None`: for every reference field whose target subclasses `Model`,
`db_value` applied to `None` raises a reference type error naming the
field and `NoneType`. -/
theorem db_value_none_raises (f : ReferenceField)
    (h : f.model_ref.isSubclass Model = true) :
    ∃ msg, f.db_value PyValue.none = .error (.referenceTypeError msg) ∧
      String.containedIn f.name msg ∧ String.containedIn "NoneType" msg := by
  have hn : (PyValue.none).pyclass.isSubclass f.model_ref = false := by
    simpa [PyValue.pyclass] using noneType_not_subclass h
  refine ⟨_, db_value_of_not_subclass f PyValue.none hn, ?_, ?_⟩
  · exact containedIn_intro "Invalid reference type. Field \""
      ("\" required value type " ++ f.model_ref.name ++ ", but got "
        ++ (PyValue.none).pyclass.name) (by simp [String.data_append])
  · exact containedIn_intro
      ("Invalid reference type. Field \"" ++ f.name ++ "\" required value type "
        ++ f.model_ref.name ++ ", but got ") ""
      (by simp [String.data_append, PyValue.pyclass, NoneType, PyClass.name])

/-- Witness for the amended C9 at a concrete field. -/
theorem db_value_none_raises_witness :
    companyRef.model_ref.isSubclass Model = true ∧
    (∃ msg, companyRef.db_value PyValue.none = .error (.referenceTypeError msg) ∧
      String.containedIn companyRef.name msg ∧
      String.containedIn "NoneType" msg) :=
  ⟨by decide, db_value_none_raises companyRef (by decide)⟩

/-- Claim C10: on success the attribute handlers return the field value
unchanged — applying an attribute configures the field object but never
alters the value passed through it. -/
theorem attr_handlers_preserve_field_value
    (f f2 : ReferenceField) (v fv out : PyValue) (mn : String) :
    (f.attr_auto_load v fv = .ok (f2, out) → out = fv) ∧
    (f.attr_on_load mn fv = .ok (f2, out) → out = fv) := by
  constructor
  · intro h
    cases v with
    | bool b =>
      simp only [ReferenceField.attr_auto_load, Except.ok.injEq,
        Prod.mk.injEq] at h
      exact h.2.symm
    | none => simp [ReferenceField.attr_auto_load] at h
    | int n => simp [ReferenceField.attr_auto_load] at h
    | str s => simp [ReferenceField.attr_auto_load] at h
    | model m => simp [ReferenceField.attr_auto_load] at h
  · intro h
    cases hg : f.model_cls.getattr mn with
    | none => simp [ReferenceField.attr_on_load, hg] at h
    | some c =>
      cases c with
      | false => simp [ReferenceField.attr_on_load, hg] at h
      | true =>
        simp only [ReferenceField.attr_on_load, hg, if_true,
          Except.ok.injEq, Prod.mk.injEq] at h
        exact h.2.symm

/-- Witness for C10: a successful `attr_auto_load` passes the field
value through unchanged. -/
theorem attr_handlers_preserve_field_value_witness :
    companyRef.attr_auto_load (.bool false) (.str "v")
      = .ok (ReferenceField.mk "company" CompanyCls CompanyCls false Option.none,
          .str "v") ∧
    PyValue.str "v" = PyValue.str "v" :=
  ⟨by rfl,
    (attr_handlers_preserve_field_value companyRef
      (ReferenceField.mk "company" CompanyCls CompanyCls false Option.none)
      (.bool false) (.str "v") (.str "v") "m").1 (by rfl)⟩

end FireO
